import Mathlib

/-!
Shallow embedding of `yew_styles`'s `NavbarDropdown` component
(`src/components/navbar/navbar_dropdown/navbar_dropdown_container.rs`).

The component is a two-state toggle: a boolean `show` flag plus stored props,
with `create` / `update` / `change` / `view` and the helper `get_items`.
Markup (`Html` in yew) is embedded as an inductive tree; event-handler
attributes carry the `Msg` value the corresponding `link.callback` dispatches.
-/

namespace YewStyles

/-- The component's message type: `Msg::ShowDropdown` and `Msg::HideDropdown`. -/
inductive Msg where
  | ShowDropdown : Msg
  | HideDropdown : Msg
deriving DecidableEq, Repr

mutual
/-- Embedding of yew `Html` markup: empty fragment, text, or an element node
with a tag, plain string attributes, event-handler attributes (carrying the
message their callback dispatches), and child nodes. -/
inductive Html where
  | empty : Html
  | text : String → Html
  | node : String → List (String × String) → List (String × Msg) → HtmlList → Html

/-- A collection of `Html` nodes (yew's `Children` / node lists). -/
inductive HtmlList where
  | nil : HtmlList
  | cons : Html → HtmlList → HtmlList
end
deriving instance DecidableEq for Html, HtmlList
deriving instance Repr for Html, HtmlList

/-- Yew `Children` is a collection of `Html` nodes. -/
abbrev Children := HtmlList

/-- Build an `HtmlList` from a Lean list of nodes. -/
def HtmlList.ofList : List Html → HtmlList
  | [] => HtmlList.nil
  | h :: t => HtmlList.cons h (HtmlList.ofList t)

/-- The component's `Props` struct: `main_content` and `children` are required;
`class_name`, `active` and `id` carry `#[prop_or...]` defaults (modelled by
`Props.build` below). Derives `PartialEq` in the source. -/
structure Props where
  main_content : Html
  class_name : String
  active : Bool
  id : String
  children : Children
deriving DecidableEq, Repr

/-- Construction of `Props` through the yew `Properties` builder:
`main_content` and `children` are required arguments; `class_name` and `id`
fall back to `#[prop_or_default]` (empty string) and `active` to
`#[prop_or(false)]` when not supplied. -/
def Props.build (main_content : Html) (children : Children)
    (class_name : Option String := none) (active : Option Bool := none)
    (id : Option String := none) : Props :=
  { main_content := main_content
    class_name := class_name.getD ""
    active := active.getD false
    id := id.getD ""
    children := children }

/-- The component state: stored props plus the `show` visibility flag.
The `link : ComponentLink<Self>` field is framework plumbing (it only mints
callbacks) and carries no component-owned data, so it is not part of the
embedded state. -/
structure NavbarDropdown where
  props : Props
  «show» : Bool
deriving DecidableEq, Repr

/-- `NavbarDropdown::create`: stores the props and initializes `show` to
`false`. -/
def NavbarDropdown.create (props : Props) : NavbarDropdown :=
  { props := props, «show» := false }

/-- `NavbarDropdown::update`: `ShowDropdown` sets `show := true`,
`HideDropdown` sets `«show» := false`; both return `true` (`ShouldRender`). -/
def NavbarDropdown.update (s : NavbarDropdown) (msg : Msg) :
    NavbarDropdown × Bool :=
  match msg with
  | Msg.ShowDropdown => ({ s with «show» := true }, true)
  | Msg.HideDropdown => ({ s with «show» := false }, true)

/-- `NavbarDropdown::change`: if the incoming props differ from the stored
props, replace them and return `true`; otherwise return `false`. -/
def NavbarDropdown.change (s : NavbarDropdown) (props : Props) :
    NavbarDropdown × Bool :=
  if s.props ≠ props then ({ s with props := props }, true) else (s, false)

/-- `get_items`: when `show` is true, wrap the children in a `<ul>` element;
otherwise render the empty fragment `html! {}`. -/
def get_items («show» : Bool) (children : Children) : Html :=
  if «show» then Html.node "ul" [] [] children else Html.empty

/-- The class attribute of the outer `<div>`: the yew classes tuple
`("navbar-dropdown", if active {"active"} else {""}, class_name)`; empty
strings contribute nothing. -/
def navbarDropdownClasses (active : Bool) (class_name : String) : String :=
  String.intercalate " "
    (["navbar-dropdown"] ++ (if active then ["active"] else []) ++
      (if class_name = "" then [] else [class_name]))

/-- `NavbarDropdown::view`: an outer `<div>` with the class/id attributes and
the `onmouseover` / `onmouseleave` / `onclick` callbacks, containing the
`main-content` wrapper div and the result of `get_items`. -/
def NavbarDropdown.view (s : NavbarDropdown) : Html :=
  Html.node "div"
    [("class", navbarDropdownClasses s.props.active s.props.class_name),
     ("id", s.props.id)]
    [("onmouseover", Msg.ShowDropdown),
     ("onmouseleave", Msg.HideDropdown),
     ("onclick", Msg.HideDropdown)]
    (HtmlList.ofList
      [Html.node "div" [("class", "main-content")] []
        (HtmlList.ofList [s.props.main_content]),
       get_items s.«show» s.props.children])

/-- The child nodes of a rendered element (empty for non-elements). -/
def Html.childrenOf : Html → HtmlList
  | Html.node _ _ _ cs => cs
  | _ => HtmlList.nil

/-- C1: processing `ShowDropdown` (the hover-enter event) sets `show` to
`true` in every state, and the subsequent rendering via `view` / `get_items`
wraps the child items inside a `<ul>` list container. -/
theorem update_show_reveals_items (s : NavbarDropdown) :
    ((s.update Msg.ShowDropdown).1).«show» = true ∧
    get_items ((s.update Msg.ShowDropdown).1).«show»
        ((s.update Msg.ShowDropdown).1).props.children =
      Html.node "ul" [] [] s.props.children ∧
    ((s.update Msg.ShowDropdown).1).view.childrenOf =
      HtmlList.ofList
        [Html.node "div" [("class", "main-content")] []
          (HtmlList.ofList [s.props.main_content]),
         Html.node "ul" [] [] s.props.children] := by
  refine ⟨rfl, ?_, ?_⟩ <;>
    simp [NavbarDropdown.update, NavbarDropdown.view, get_items,
      Html.childrenOf]

/-- C2: processing `HideDropdown` (dispatched by both hover-leave and click)
sets `show` to `false` in every state, and `get_items` then renders the empty
fragment with no child items. -/
theorem update_hide_hides_items (s : NavbarDropdown) :
    ((s.update Msg.HideDropdown).1).«show» = false ∧
    get_items ((s.update Msg.HideDropdown).1).«show»
        ((s.update Msg.HideDropdown).1).props.children = Html.empty := by
  exact ⟨rfl, rfl⟩

/-- C3: for every props value, a freshly created component has `show = false`
and its initial `get_items` rendering is the empty fragment. -/
theorem create_initially_hidden (p : Props) :
    (NavbarDropdown.create p).«show» = false ∧
    get_items (NavbarDropdown.create p).«show»
        (NavbarDropdown.create p).props.children = Html.empty := by
  exact ⟨rfl, rfl⟩

/-- C4: `change` leaves the resulting stored props equal to the incoming
props and never touches the `show` flag. -/
theorem change_sets_props_preserves_show (s : NavbarDropdown) (p : Props) :
    ((s.change p).1).props = p ∧ ((s.change p).1).«show» = s.«show» := by
  by_cases h : s.props = p <;> simp [NavbarDropdown.change, h]

/-- C5: `active` is purely cosmetic: two states that agree on `show` and on
every props field except `active` render exactly the same children of the
outer div (the main-content wrapper and the `get_items` output), so whether
and which child items appear is independent of `active`. -/
theorem active_is_cosmetic (s₁ s₂ : NavbarDropdown)
    (hshow : s₁.«show» = s₂.«show»)
    (hmc : s₁.props.main_content = s₂.props.main_content)
    (_hcn : s₁.props.class_name = s₂.props.class_name)
    (_hid : s₁.props.id = s₂.props.id)
    (hch : s₁.props.children = s₂.props.children) :
    s₁.view.childrenOf = s₂.view.childrenOf ∧
    get_items s₁.«show» s₁.props.children =
      get_items s₂.«show» s₂.props.children := by
  constructor <;>
    simp [NavbarDropdown.view, Html.childrenOf, get_items, hshow, hmc, hch]

/-- Witness for C5 at concrete states differing only in `active`. -/
theorem active_is_cosmetic_witness :
    (NavbarDropdown.mk (Props.mk Html.empty "c" false "i"
        (HtmlList.cons (Html.text "item") HtmlList.nil)) true).view.childrenOf =
      (NavbarDropdown.mk (Props.mk Html.empty "c" true "i"
        (HtmlList.cons (Html.text "item") HtmlList.nil)) true).view.childrenOf :=
  (active_is_cosmetic _ _ rfl rfl rfl rfl rfl).1

/-- C6: props built without the optional arguments default `active` to
`false` and `class_name` / `id` to the empty string, while the required
`main_content` and `children` are stored as given. -/
theorem props_build_defaults (mc : Html) (ch : Children) :
    (Props.build mc ch).main_content = mc ∧
    (Props.build mc ch).children = ch ∧
    (Props.build mc ch).active = false ∧
    (Props.build mc ch).class_name = "" ∧
    (Props.build mc ch).id = "" := by
  exact ⟨rfl, rfl, rfl, rfl, rfl⟩

/-- C7: `update` modifies only the `show` field: the stored props (hence
`main_content`, `children`, `active`, `class_name` and `id`) are unchanged
by every message. -/
theorem update_touches_only_show (s : NavbarDropdown) (m : Msg) :
    ((s.update m).1).props = s.props := by
  cases m <;> rfl

/-- C8: the component has no failure path: `create`, `update`, `change`,
`view` and `get_items` are total functions that produce a result on every
props value, message and state. -/
theorem operations_total (p p' : Props) (s : NavbarDropdown) (m : Msg) :
    (∃ st, NavbarDropdown.create p = st) ∧
    (∃ r, s.update m = r) ∧
    (∃ r, s.change p' = r) ∧
    (∃ h, s.view = h) ∧
    (∃ h, get_items s.«show» s.props.children = h) :=
  ⟨⟨_, rfl⟩, ⟨_, rfl⟩, ⟨_, rfl⟩, ⟨_, rfl⟩, ⟨_, rfl⟩⟩

/-- C9: `update` returns `true` (requests a re-render) for every state and
message, including messages that do not change the state. -/
theorem update_always_rerenders (s : NavbarDropdown) (m : Msg) :
    (s.update m).2 = true := by
  cases m <;> rfl

/-- C10: `change` returns `true` exactly when the incoming props differ from
the stored props; when they are equal it returns `false` and leaves the whole
state unchanged. -/
theorem change_rerenders_iff_props_differ (s : NavbarDropdown) (p : Props) :
    ((s.change p).2 = true ↔ s.props ≠ p) ∧
    (s.props = p → s.change p = (s, false)) := by
  by_cases h : s.props = p <;> simp [NavbarDropdown.change, h]

/-- Witness for C10 at equal concrete props: `change` returns `false` and
preserves the state. -/
theorem change_rerenders_iff_props_differ_witness :
    ((NavbarDropdown.mk (Props.build Html.empty HtmlList.nil) false).change
        (Props.build Html.empty HtmlList.nil)) =
      (NavbarDropdown.mk (Props.build Html.empty HtmlList.nil) false, false) :=
  (change_rerenders_iff_props_differ _ _).2 rfl

end YewStyles
